import Mathlib

/-!
Verification of the annotation/animation core of the Airplane-presentation app.

The definitions below are a shallow embedding of `src/App.tsx`:
pure expressions become Lean functions, React state updates become explicit
state passing, `localStorage` becomes a string-keyed partial map, and the
three.js scene graph becomes a list of named nodes with rational rotation
angles.  JavaScript numbers are modelled as `ℚ` except for the light-position
trigonometry, which is modelled over `ℝ`.
-/

namespace AirplaneApp

/-- A JSON value of the shapes this application ever persists: booleans,
numbers and null. Mirrors what `JSON.parse` can yield for the stored keys. -/
inductive Jval where
  | num (q : ℚ)
  | bool (b : Bool)
  | null
deriving DecidableEq

/-- Reads a run of decimal digits, extending the accumulator; any non-digit
character makes the whole parse fail. -/
def parseNatAux : List Char → ℕ → Option ℕ
  | [], acc => some acc
  | c :: tl, acc =>
    if c.isDigit then parseNatAux tl (acc * 10 + (c.toNat - 48)) else none

/-- Parses an optionally negated decimal integer numeral. -/
def parseIntChars (ds : List Char) : Option ℤ :=
  match ds with
  | [] => none
  | c :: tl =>
    if c = '-' then
      if tl = [] then none else (parseNatAux tl 0).map (fun n => -(n : ℤ))
    else (parseNatAux ds 0).map (fun n => (n : ℤ))

/-- Modelled collaborator `JSON.parse` (browser API, external to the repo),
restricted to the value shapes the app stores: the literals `true`, `false`,
`null` and integer numerals parse; any other string fails (returns `none`,
standing for the exception `JSON.parse` throws). -/
def parseJson (s : String) : Option Jval :=
  if s = "true" then some (Jval.bool true)
  else if s = "false" then some (Jval.bool false)
  else if s = "null" then some Jval.null
  else (parseIntChars s.data).map (fun n => Jval.num n)

/-- Modelled collaborator `JSON.stringify` (browser API, external to the repo)
on the value shapes the app stores. The exact numeral rendering is immaterial
to the claims proved below: every value written during a reset is removed
again before any reload. -/
def jsonStringify : Jval → String
  | Jval.bool true => "true"
  | Jval.bool false => "false"
  | Jval.null => "null"
  | Jval.num q => if q.den = 1 then toString q.num else toString q

/-- The persistent key-value medium behind `window.localStorage`:
`none` models `getItem` returning `null` for an absent key. -/
def Store : Type := String → Option String

/-- An empty `localStorage` (first run: every key absent). -/
def emptyStore : Store := fun _ => none

/-- Embeds `localStorage.setItem`. -/
def setItem (st : Store) (k v : String) : Store :=
  fun k2 => if k2 = k then some v else st k2

/-- Embeds `localStorage.removeItem`. -/
def removeItem (st : Store) (k : String) : Store :=
  fun k2 => if k2 = k then none else st k2

/-- Embeds the initializer of the `useLocalStorage` hook
(`App.tsx` lines 500-509): read `localStorage.getItem(key)`; if the item is
absent or the empty string, use the supplied default; otherwise `JSON.parse`
it, and on a parse exception (the `catch` branch) fall back to the default.
Note: a value that parses successfully is returned verbatim, with no domain
check of any kind. -/
def useLocalStorageInit (st : Store) (key : String) (initialValue : Jval) : Jval :=
  match st key with
  | none => initialValue
  | some item =>
    if item = "" then initialValue
    else match parseJson item with
      | some v => v
      | none => initialValue

/-- An anchor of the catalog (`PointData` in `App.tsx`): a named 3D point in
model-local coordinates with an ordered list of description lines. -/
structure PointData where
  id : String
  position : ℚ × ℚ × ℚ
  description : List String
deriving DecidableEq

/-- The static anchor catalog (`mockPoints`, `App.tsx` lines 47-90). -/
def mockPoints : List PointData :=
  [ { id := "Фрагмент фюзеляжа"
      position := (5, 8, 5)
      description :=
        [ "Самолет Си-47 Дуглас (ст. лейтенант Е.Ф. Герасимов)"
        , "Размеры: 200*100*30"
        , "Экспедиция «АЛСИБ», июль 2022 г." ] }
  , { id := "Лопасть винта"
      position := (3, 8, 5)
      description :=
        [ "Самолет С-47 Дуглас (ст. лейтенант Спиридонов)"
        , "Размеры: 130*30*30"
        , "Экспедиция «АЛСИБ», сентябрь 2022 г." ] }
  , { id := "Фрагмент киля"
      position := (1, 8, 5)
      description :=
        [ "Самолет С-47 Дуглас (майор Ф.Л. Пономаренко)"
        , "Размеры: 140*120*30"
        , "Экспедиция «АЛСИБ», июль 2022 г." ] }
  , { id := "Радиоприемник"
      position := (-1, 8, 5)
      description :=
        [ "Из кабины самолета PV-1 Ventura"
        , "Размеры: 24*10*5"
        , "Экспедиция «Камчатка», 2021-2023 гг." ] }
  , { id := "Шильды"
      position := (-3, 8, 5)
      description :=
        [ "Шильды (4 шт.) с разных самолетов"
        , "Экспедиция «Камчатка», 2021-2023 гг." ] }
  , { id := "Кислородный баллон"
      position := (-5, 8, 5)
      description :=
        [ "Из самолета PV-1 Ventura"
        , "Размеры: 45*15"
        , "Экспедиция «АЛСИБ», июль 2022 г." ] } ]

/-- The state of the `App` component: the `useState`/`useLocalStorage` cells
declared in `App.tsx` lines 230-243. -/
structure AppState where
  isPanelOpen : Bool
  isAutoRotating : Bool
  ambientIntensity : ℚ
  directionalIntensity : ℚ
  lightAngle : ℚ
  activePoint : Option PointData
  showPoints : Bool
  pointSize : ℚ
  rotationSpeed : ℚ
  isPropellerSpinning : Bool
  propellerSpeed : ℚ
deriving DecidableEq

/-- `arePointsActuallyVisible = showPoints && !activePoint` (`App.tsx` 275). -/
def arePointsActuallyVisible (s : AppState) : Bool :=
  s.showPoints && s.activePoint.isNone

/-- `actualIsRotating = isAutoRotating && !activePoint` (`App.tsx` 276). -/
def actualIsRotating (s : AppState) : Bool :=
  s.isAutoRotating && s.activePoint.isNone

/-- `<OrbitControls enabled={!activePoint} />` (`App.tsx` 479). -/
def orbitControlsEnabled (s : AppState) : Bool :=
  s.activePoint.isNone

/-- `handlePointClick` (`App.tsx` 279-281): activating a hotspot stores its
anchor as the active point. -/
def handlePointClick (s : AppState) (p : PointData) : AppState :=
  { s with activePoint := some p }

/-- `handleCloseInfoBox` (`App.tsx` 283-285), wired to the info-box backdrop
click and close button: clears the active point. -/
def handleCloseInfoBox (s : AppState) : AppState :=
  { s with activePoint := none }

/-- One rendered hotspot overlay: the `InteractivePoint` for an anchor,
carrying the `size` and `isVisible` props it is given. -/
structure Overlay where
  point : PointData
  size : ℚ
  isVisible : Bool
deriving DecidableEq

/-- The list of hotspot overlays the `Airplane` component renders
(`App.tsx` 190-200): when `arePointsVisible` is false nothing is rendered at
all; when it is true every catalog anchor is rendered with `isVisible={true}`
and the shared `pointSize`. -/
def airplaneOverlays (arePointsVisible : Bool) (pointSize : ℚ)
    (points : List PointData) : List Overlay :=
  if arePointsVisible then
    points.map (fun p => { point := p, size := pointSize, isVisible := true })
  else []

/-- The overlay list as wired in `App` (`App.tsx` 466-477): the `Airplane`
receives `arePointsVisible=arePointsActuallyVisible`, `pointSize`, and the
catalog `mockPoints`. -/
def displayableOverlays (s : AppState) : List Overlay :=
  airplaneOverlays (arePointsActuallyVisible s) s.pointSize mockPoints

/-- Typed read of a persisted boolean cell. The JS hook is untyped and hands
back whatever `JSON.parse` yields; this projection keeps the parsed value
whenever it has the cell's type and is only applied below at stores where the
key is absent or well-typed, so the extra fallback branch is never taken in
any claim proved here. -/
def hydrateBool (st : Store) (key : String) (dflt : Bool) : Bool :=
  match useLocalStorageInit st key (Jval.bool dflt) with
  | Jval.bool b => b
  | _ => dflt

/-- Typed read of a persisted numeric cell; see `hydrateBool`. -/
def hydrateNum (st : Store) (key : String) (dflt : ℚ) : ℚ :=
  match useLocalStorageInit st key (Jval.num dflt) with
  | Jval.num q => q
  | _ => dflt

/-- The `App` state right after mount (`App.tsx` 230-243): the nine persisted
cells are hydrated from the store with their coded defaults; `isPanelOpen`
starts false and `activePoint` starts `null`. -/
def initialState (st : Store) : AppState :=
  { isPanelOpen := false
    isAutoRotating := hydrateBool st "isAutoRotating" true
    ambientIntensity := hydrateNum st "ambientIntensity" 0
    directionalIntensity := hydrateNum st "directionalIntensity" (7/10)
    lightAngle := hydrateNum st "lightAngle" 45
    activePoint := none
    showPoints := hydrateBool st "showPoints" true
    pointSize := hydrateNum st "pointSize" 1
    rotationSpeed := hydrateNum st "rotationSpeed" (3/10)
    isPropellerSpinning := hydrateBool st "isPropellerSpinning" true
    propellerSpeed := hydrateNum st "propellerSpeed" 15 }

/-- The nine persisted settings as raw stored values, one cell per
`useLocalStorage` call of `App.tsx` 234-243. -/
structure Settings where
  isAutoRotating : Jval
  ambientIntensity : Jval
  directionalIntensity : Jval
  lightAngle : Jval
  showPoints : Jval
  pointSize : Jval
  rotationSpeed : Jval
  isPropellerSpinning : Jval
  propellerSpeed : Jval
deriving DecidableEq

/-- The coded default of every persisted setting. -/
def defaultSettings : Settings :=
  { isAutoRotating := Jval.bool true
    ambientIntensity := Jval.num 0
    directionalIntensity := Jval.num (7/10)
    lightAngle := Jval.num 45
    showPoints := Jval.bool true
    pointSize := Jval.num 1
    rotationSpeed := Jval.num (3/10)
    isPropellerSpinning := Jval.bool true
    propellerSpeed := Jval.num 15 }

/-- The nine `localStorage` keys of the persisted settings. -/
def settingsKeys : List String :=
  [ "isAutoRotating", "ambientIntensity", "directionalIntensity", "lightAngle"
  , "showPoints", "pointSize", "rotationSpeed", "isPropellerSpinning"
  , "propellerSpeed" ]

/-- Reloading every persisted setting from the store through the
`useLocalStorage` initializer, with the coded defaults. -/
def loadSettings (st : Store) : Settings :=
  { isAutoRotating := useLocalStorageInit st "isAutoRotating" (Jval.bool true)
    ambientIntensity := useLocalStorageInit st "ambientIntensity" (Jval.num 0)
    directionalIntensity := useLocalStorageInit st "directionalIntensity" (Jval.num (7/10))
    lightAngle := useLocalStorageInit st "lightAngle" (Jval.num 45)
    showPoints := useLocalStorageInit st "showPoints" (Jval.bool true)
    pointSize := useLocalStorageInit st "pointSize" (Jval.num 1)
    rotationSpeed := useLocalStorageInit st "rotationSpeed" (Jval.num (3/10))
    isPropellerSpinning := useLocalStorageInit st "isPropellerSpinning" (Jval.bool true)
    propellerSpeed := useLocalStorageInit st "propellerSpeed" (Jval.num 15) }

/-- `resetSettings` (`App.tsx` 254-273): each state setter is invoked with the
default (each `useLocalStorage` setter also writes the value to
`localStorage.setItem`), and then `localStorage.removeItem` is called for each
of the nine keys. Returns the in-memory settings and the resulting store. -/
def resetSettings (st : Store) : Settings × Store :=
  let st1 := setItem st "isAutoRotating" (jsonStringify (Jval.bool true))
  let st2 := setItem st1 "ambientIntensity" (jsonStringify (Jval.num 0))
  let st3 := setItem st2 "directionalIntensity" (jsonStringify (Jval.num (7/10)))
  let st4 := setItem st3 "lightAngle" (jsonStringify (Jval.num 45))
  let st5 := setItem st4 "showPoints" (jsonStringify (Jval.bool true))
  let st6 := setItem st5 "pointSize" (jsonStringify (Jval.num 1))
  let st7 := setItem st6 "rotationSpeed" (jsonStringify (Jval.num (3/10)))
  let st8 := setItem st7 "isPropellerSpinning" (jsonStringify (Jval.bool true))
  let st9 := setItem st8 "propellerSpeed" (jsonStringify (Jval.num 15))
  let st10 := removeItem st9 "isAutoRotating"
  let st11 := removeItem st10 "ambientIntensity"
  let st12 := removeItem st11 "directionalIntensity"
  let st13 := removeItem st12 "lightAngle"
  let st14 := removeItem st13 "showPoints"
  let st15 := removeItem st14 "pointSize"
  let st16 := removeItem st15 "rotationSpeed"
  let st17 := removeItem st16 "isPropellerSpinning"
  let st18 := removeItem st17 "propellerSpeed"
  (defaultSettings, st18)

/-- Euler rotation angles of a scene node (`THREE.Object3D.rotation`). -/
structure EulerRot where
  x : ℚ
  y : ℚ
  z : ℚ
deriving DecidableEq

/-- A node of the loaded model graph: a name and a local rotation. -/
structure SceneNode where
  name : String
  rotation : EulerRot
deriving DecidableEq

/-- `scene.getObjectByName` on the flattened model graph: the first node with
the given name, if any. -/
def getObjectByName (scene : List SceneNode) (name : String) : Option SceneNode :=
  scene.find? (fun nd => nd.name == name)

/-- Index-level counterpart of `getObjectByName`: the position of the first
node with a satisfying name. The embedding identifies a cached `Object3D`
reference with the index of its node in the scene list. -/
def findNodeIdx (p : SceneNode → Bool) : List SceneNode → Option ℕ
  | [] => none
  | nd :: tl => if p nd then some 0 else (findNodeIdx p tl).map (· + 1)

/-- The hard-coded blade node names (`App.tsx` 143). -/
def bladeNames : List String :=
  [ "AirFrance_obj_26_aiAirFrance_udim2_0002"
  , "AirFrance_obj_22_aiAirFrance_udim2_0002" ]

/-- The hard-coded spinner node names (`App.tsx` 144). -/
def spinnerNames : List String := ["Cylinder002", "Cylinder005"]

/-- The name-lookup loop of `App.tsx` 149-157: look each name up and keep only
the parts that are found (`if (part) foundBlades.push(part)`); an absent name
contributes nothing and raises no error. -/
def resolveIdx (scene : List SceneNode) (names : List String) : List ℕ :=
  names.filterMap (fun n => findNodeIdx (fun nd => nd.name == n) scene)

/-- The `Airplane` component's model-graph state: the loaded scene plus the
cached blade and spinner references resolved once by the `useEffect` of
`App.tsx` 142-161. -/
structure AirplaneState where
  scene : List SceneNode
  blades : List ℕ
  spinners : List ℕ
deriving DecidableEq

/-- Mounting the `Airplane` (`App.tsx` 142-161): the blade and spinner lookups
run once against the loaded scene and the found parts are cached. -/
def mountAirplane (scene : List SceneNode) : AirplaneState :=
  { scene := scene
    blades := resolveIdx scene bladeNames
    spinners := resolveIdx scene spinnerNames }

/-- Replace the node at one index by the image under `f`; out-of-range indices
change nothing. This is the functional rendering of mutating one cached
`Object3D` reference. -/
def modifyAt : List SceneNode → ℕ → (SceneNode → SceneNode) → List SceneNode
  | [], _, _ => []
  | nd :: tl, 0, f => f nd :: tl
  | nd :: tl, i + 1, f => nd :: modifyAt tl i f

/-- Apply `f` to the node at every index of `idxs` in order, as the `forEach`
loops of the frame callback do to the cached parts. -/
def applyAll (f : SceneNode → SceneNode) (idxs : List ℕ) (sc : List SceneNode) :
    List SceneNode :=
  idxs.foldl (fun acc i => modifyAt acc i f) sc

/-- One blade's per-frame update: `blade.rotation.x += delta * propellerSpeed`
(`App.tsx` 175). -/
def bladeStep (propellerSpeed delta : ℚ) (nd : SceneNode) : SceneNode :=
  { nd with rotation := { nd.rotation with x := nd.rotation.x + delta * propellerSpeed } }

/-- One spinner's per-frame update:
`spinner.rotation.y -= delta * propellerSpeed` (`App.tsx` 181). -/
def spinnerStep (propellerSpeed delta : ℚ) (nd : SceneNode) : SceneNode :=
  { nd with rotation := { nd.rotation with y := nd.rotation.y - delta * propellerSpeed } }

/-- The sub-part half of the `useFrame` callback (`App.tsx` 172-184): when
`isPropellerSpinning` holds, every cached blade advances its x-rotation and
every cached spinner retreats its y-rotation by `delta * propellerSpeed`;
otherwise nothing moves. -/
def spinFrame (st : AirplaneState) (isPropellerSpinning : Bool)
    (propellerSpeed delta : ℚ) : AirplaneState :=
  if isPropellerSpinning then
    let sc1 := applyAll (bladeStep propellerSpeed delta) st.blades st.scene
    let sc2 := applyAll (spinnerStep propellerSpeed delta) st.spinners sc1
    { st with scene := sc2 }
  else st

/-- The per-frame mutable state the render loop touches: the model's yaw
(`modelRef.current.rotation.y`) and the model graph with its cached parts. -/
structure FrameState where
  yaw : ℚ
  airplane : AirplaneState
deriving DecidableEq

/-- One whole frame as wired in `App` (`App.tsx` 167-185 with the props of
462-477): the yaw advances by `delta * rotationSpeed` exactly when the
`Airplane` receives `isAutoRotating = actualIsRotating`; the sub-part spin is
gated only by the raw `isPropellerSpinning` flag. -/
def appFrame (s : AppState) (fs : FrameState) (delta : ℚ) : FrameState :=
  { yaw := if actualIsRotating s then fs.yaw + delta * s.rotationSpeed else fs.yaw
    airplane := spinFrame fs.airplane s.isPropellerSpinning s.propellerSpeed delta }

/-- Running a sequence of frames with the given per-frame deltas. -/
def appFrames (s : AppState) (fs : FrameState) (deltas : List ℚ) : FrameState :=
  deltas.foldl (appFrame s) fs

/-- `calculateLightPosition` (`App.tsx` 247-252): the directional light sits at
`(radius * cos angleRad, height, radius * sin angleRad)` with
`angleRad = lightAngle * π / 180` and `radius = height = 10`. -/
noncomputable def calculateLightPosition (lightAngle : ℝ) : ℝ × ℝ × ℝ :=
  let angleRad := lightAngle * (Real.pi / 180)
  let radius : ℝ := 10
  let height : ℝ := 10
  (radius * Real.cos angleRad, height, radius * Real.sin angleRad)

/-- A pointer-down target, classified by the two containment tests
`handleClickOutside` performs (`App.tsx` 288-296): whether the target lies
inside the trigger button and whether it lies inside the panel. -/
structure ClickTarget where
  inButton : Bool
  inPanel : Bool
deriving DecidableEq

/-- `handleClickOutside` (`App.tsx` 288-296) as a transition on `isPanelOpen`:
a target inside the trigger button returns early (state unchanged); otherwise
a target outside the panel closes it; a target inside the panel leaves it. -/
def handleClickOutside (isPanelOpen : Bool) (t : ClickTarget) : Bool :=
  if t.inButton then isPanelOpen
  else if !t.inPanel then false
  else isPanelOpen

/-- The `useEffect` of `App.tsx` 298-304 registers the mousedown listener
exactly while the panel is open and removes it on cleanup. -/
def listenerRegistered (isPanelOpen : Bool) : Bool := isPanelOpen

/-- A document-level mousedown: it runs `handleClickOutside` only when the
listener is registered, i.e. only while the panel is open. -/
def onMousedown (isPanelOpen : Bool) (t : ClickTarget) : Bool :=
  if listenerRegistered isPanelOpen then handleClickOutside isPanelOpen t
  else isPanelOpen

/-- The trigger button's click handler (`App.tsx` 329):
`setIsPanelOpen(!isPanelOpen)`. -/
def togglePanel (isPanelOpen : Bool) : Bool := !isPanelOpen

theorem modifyAt_getElem (l : List SceneNode) (i : ℕ) (f : SceneNode → SceneNode)
    (j : ℕ) :
    (modifyAt l i f)[j]? = if j = i then (l[j]?).map f else l[j]? := by
  induction l generalizing i j with
  | nil => simp [modifyAt]
  | cons nd tl ih =>
    cases i with
    | zero =>
      cases j with
      | zero => simp [modifyAt]
      | succ k => simp [modifyAt]
    | succ m =>
      cases j with
      | zero => simp [modifyAt]
      | succ k => simpa [modifyAt] using ih m k

theorem applyAll_getElem (f : SceneNode → SceneNode) (idxs : List ℕ)
    (sc : List SceneNode) (j : ℕ) (hnd : idxs.Nodup) :
    (applyAll f idxs sc)[j]? = if j ∈ idxs then (sc[j]?).map f else sc[j]? := by
  induction idxs generalizing sc with
  | nil => simp [applyAll]
  | cons i tl ih =>
    have hi : i ∉ tl := (List.nodup_cons.mp hnd).1
    have htl : tl.Nodup := (List.nodup_cons.mp hnd).2
    have hstep : applyAll f (i :: tl) sc = applyAll f tl (modifyAt sc i f) := rfl
    rw [hstep, ih _ htl]
    by_cases hj : j ∈ tl
    · have hne : j ≠ i := fun h => hi (h ▸ hj)
      simp [hj, hne, modifyAt_getElem, List.mem_cons]
    · simp [hj, modifyAt_getElem, List.mem_cons]

theorem spinFrame_getElem (st : AirplaneState) (speed delta : ℚ)
    (hb : st.blades.Nodup) (hs : st.spinners.Nodup)
    (hd : ∀ i ∈ st.blades, i ∉ st.spinners) (j : ℕ) :
    ((spinFrame st true speed delta).scene)[j]? =
      if j ∈ st.blades then (st.scene[j]?).map (bladeStep speed delta)
      else if j ∈ st.spinners then (st.scene[j]?).map (spinnerStep speed delta)
      else st.scene[j]? := by
  have hframe : (spinFrame st true speed delta).scene =
      applyAll (spinnerStep speed delta) st.spinners
        (applyAll (bladeStep speed delta) st.blades st.scene) := by
    simp [spinFrame]
  rw [hframe, applyAll_getElem _ _ _ _ hs, applyAll_getElem _ _ _ _ hb]
  by_cases hjb : j ∈ st.blades
  · have hjs : j ∉ st.spinners := hd j hjb
    simp [hjb, hjs]
  · by_cases hjs : j ∈ st.spinners
    · simp [hjb, hjs]
    · simp [hjb, hjs]

/-- C1: an anchor's overlay is displayable iff the global visibility flag
`showPoints` is true and no selection is active; with `showPoints=false` the
controller yields zero displayable overlays, and with an active selection all
anchor overlays are hidden. -/
theorem claim_C1 (s : AppState) :
    (∀ p ∈ mockPoints,
        ((∃ o ∈ displayableOverlays s, o.point = p ∧ o.isVisible = true) ↔
          (s.showPoints = true ∧ s.activePoint = none)))
    ∧ (s.showPoints = false → displayableOverlays s = [])
    ∧ (∀ q, s.activePoint = some q → displayableOverlays s = []) := by
  refine ⟨?_, ?_, ?_⟩
  · intro p hp
    cases hsp : s.showPoints
    · simp [displayableOverlays, airplaneOverlays, arePointsActuallyVisible, hsp]
    · cases hap : s.activePoint with
      | none =>
        have hov : displayableOverlays s =
            mockPoints.map (fun q => { point := q, size := s.pointSize, isVisible := true }) := by
          simp [displayableOverlays, airplaneOverlays, arePointsActuallyVisible, hsp, hap]
        constructor
        · intro _
          exact ⟨rfl, rfl⟩
        · intro _
          rw [hov]
          exact ⟨{ point := p, size := s.pointSize, isVisible := true },
            List.mem_map.mpr ⟨p, hp, rfl⟩, rfl, rfl⟩
      | some q =>
        simp [displayableOverlays, airplaneOverlays, arePointsActuallyVisible, hsp, hap]
  · intro h
    simp [displayableOverlays, airplaneOverlays, arePointsActuallyVisible, h]
  · intro q hq
    simp [displayableOverlays, airplaneOverlays, arePointsActuallyVisible, hq]

/-- Witness for C1 at a concrete state: with `showPoints=false` the overlay
list is empty. -/
theorem claim_C1_witness :
    displayableOverlays
      { initialState emptyStore with showPoints := false } = [] :=
  (claim_C1 { initialState emptyStore with showPoints := false }).2.1 rfl

/-- C2: a frame advances the yaw by `delta * rotationSpeed` exactly when
auto-rotation is enabled and no selection is active; otherwise the yaw is
unchanged, and with auto-rotation disabled any number of frames with any
deltas leaves the yaw fixed. -/
theorem claim_C2 (s : AppState) (fs : FrameState) (delta : ℚ) :
    (s.isAutoRotating = true → s.activePoint = none →
        (appFrame s fs delta).yaw = fs.yaw + delta * s.rotationSpeed)
    ∧ ((s.isAutoRotating = false ∨ s.activePoint ≠ none) →
        (appFrame s fs delta).yaw = fs.yaw)
    ∧ (s.isAutoRotating = false →
        ∀ deltas : List ℚ, (appFrames s fs deltas).yaw = fs.yaw) := by
  refine ⟨?_, ?_, ?_⟩
  · intro h1 h2
    simp [appFrame, actualIsRotating, h1, h2]
  · intro h
    rcases h with h | h
    · simp [appFrame, actualIsRotating, h]
    · have hno : s.activePoint.isNone = false := by
        cases hap : s.activePoint
        · exact absurd hap h
        · simp
      simp [appFrame, actualIsRotating, hno]
  · intro h deltas
    induction deltas generalizing fs with
    | nil => rfl
    | cons d tl ih =>
      have hstep : appFrames s fs (d :: tl) = appFrames s (appFrame s fs d) tl := rfl
      rw [hstep, ih]
      simp [appFrame, actualIsRotating, h]

/-- Witness for C2 at a concrete state: an enabled frame with `delta = 2`
advances the yaw from `0` to `2 * (3/10)`. -/
theorem claim_C2_witness :
    (appFrame (initialState emptyStore)
        { yaw := 0, airplane := { scene := [], blades := [], spinners := [] } }
        2).yaw = 0 + 2 * (3/10) :=
  (claim_C2 (initialState emptyStore)
      { yaw := 0, airplane := { scene := [], blades := [], spinners := [] } }
      2).1 rfl rfl

/-- C3: the directional light sits at
`(10 cos θ, 10, 10 sin θ)` with `θ = lightAngle * π / 180`, and in particular
at `(10,10,0)`, `(0,10,10)` and `(-10,10,0)` for angles 0, 90 and 180. -/
theorem claim_C3 (angle : ℝ) :
    calculateLightPosition angle =
      (10 * Real.cos (angle * (Real.pi / 180)), 10,
        10 * Real.sin (angle * (Real.pi / 180)))
    ∧ calculateLightPosition 0 = (10, 10, 0)
    ∧ calculateLightPosition 90 = (0, 10, 10)
    ∧ calculateLightPosition 180 = (-10, 10, 0) := by
  refine ⟨rfl, ?_, ?_, ?_⟩
  · simp [calculateLightPosition]
  · have h : (90 : ℝ) * (Real.pi / 180) = Real.pi / 2 := by ring
    simp [calculateLightPosition, h, Real.cos_pi_div_two, Real.sin_pi_div_two]
  · have h : (180 : ℝ) * (Real.pi / 180) = Real.pi := by ring
    simp [calculateLightPosition, h, Real.cos_pi, Real.sin_pi]

/-- A persisted store holding the valid JSON number `-1` under
`rotationSpeed`: out of the declared domain `rotationSpeed > 0`, yet parsed
without error. -/
def badStore : Store :=
  fun k => if k = "rotationSpeed" then some "-1" else none

/-- Counterexample to C4 as stated: the hook performs no domain check, so the
out-of-domain but well-formed persisted value `-1` is loaded verbatim as the
startup `rotationSpeed`, violating `rotationSpeed > 0` instead of falling back
to the default `0.3`. -/
theorem claim_C4_cex :
    useLocalStorageInit badStore "rotationSpeed" (Jval.num (3/10)) = Jval.num (-1)
    ∧ (initialState badStore).rotationSpeed = -1
    ∧ ¬ (0 < (-1 : ℚ)) := by
  refine ⟨by decide, by decide, by norm_num⟩

/-- C4 amended: loading a persisted value is total (never crashes); a missing
item, an empty item, or an item `JSON.parse` rejects falls back to the
supplied default; but an item that parses is returned verbatim, with no
domain validation of any kind. -/
theorem claim_C4 (st : Store) (key : String) (dflt : Jval) :
    (st key = none → useLocalStorageInit st key dflt = dflt)
    ∧ (∀ item, st key = some item → item = "" →
        useLocalStorageInit st key dflt = dflt)
    ∧ (∀ item, st key = some item → item ≠ "" → parseJson item = none →
        useLocalStorageInit st key dflt = dflt)
    ∧ (∀ item v, st key = some item → item ≠ "" → parseJson item = some v →
        useLocalStorageInit st key dflt = v) := by
  refine ⟨?_, ?_, ?_, ?_⟩
  · intro h
    simp [useLocalStorageInit, h]
  · intro item h he
    simp [useLocalStorageInit, h, he]
  · intro item h hne hp
    simp [useLocalStorageInit, h, hne, hp]
  · intro item v h hne hp
    simp [useLocalStorageInit, h, hne, hp]

/-- Witness for C4 at a concrete input: with an empty store the default is
returned. -/
theorem claim_C4_witness :
    useLocalStorageInit emptyStore "rotationSpeed" (Jval.num (3/10)) =
      Jval.num (3/10) :=
  (claim_C4 emptyStore "rotationSpeed" (Jval.num (3/10))).1 rfl

/-- C5: for every prior persisted state, resetting restores the built-in
defaults in memory, reloading afterwards reproduces exactly the defaults, and
none of the nine settings keys retains a persisted override. -/
theorem claim_C5 (st : Store) :
    (resetSettings st).1 = defaultSettings
    ∧ loadSettings (resetSettings st).2 = defaultSettings
    ∧ (∀ k ∈ settingsKeys, (resetSettings st).2 k = none) := by
  refine ⟨rfl, ?_, ?_⟩
  · simp [loadSettings, resetSettings, defaultSettings, useLocalStorageInit,
      setItem, removeItem]
  · intro k hk
    simp only [settingsKeys, List.mem_cons, List.not_mem_nil, or_false] at hk
    rcases hk with rfl | rfl | rfl | rfl | rfl | rfl | rfl | rfl | rfl <;>
      simp [resetSettings, setItem, removeItem]

/-- Witness for C5 at a concrete prior store: after a reset of a store that
overrode every key, the `lightAngle` key holds no persisted value. -/
theorem claim_C5_witness :
    (resetSettings (fun _ => some "2")).2 "lightAngle" = none :=
  (claim_C5 (fun _ => some "2")).2.2 "lightAngle" (by decide)

/-- C6: the selection is a single optional value, and while one is active
auto-rotation is suppressed, orbit input is disabled and every anchor overlay
is hidden; clearing it hands control back to the global toggles. -/
theorem claim_C6 (s : AppState) (p : PointData) (h : s.activePoint = some p) :
    (∀ q r, s.activePoint = some q → s.activePoint = some r → q = r)
    ∧ actualIsRotating s = false
    ∧ orbitControlsEnabled s = false
    ∧ displayableOverlays s = []
    ∧ actualIsRotating (handleCloseInfoBox s) = s.isAutoRotating
    ∧ orbitControlsEnabled (handleCloseInfoBox s) = true
    ∧ arePointsActuallyVisible (handleCloseInfoBox s) = s.showPoints := by
  refine ⟨?_, ?_, ?_, ?_, ?_, ?_, ?_⟩
  · intro q r hq hr
    rw [hq] at hr
    exact Option.some.inj hr
  · simp [actualIsRotating, h]
  · simp [orbitControlsEnabled, h]
  · simp [displayableOverlays, airplaneOverlays, arePointsActuallyVisible, h]
  · simp [actualIsRotating, handleCloseInfoBox]
  · simp [orbitControlsEnabled, handleCloseInfoBox]
  · simp [arePointsActuallyVisible, handleCloseInfoBox]

/-- The first anchor of the catalog. -/
def firstAnchor : PointData := mockPoints.get ⟨0, by decide⟩

/-- Witness for C6 at a concrete state: selecting the first anchor disables
the orbit controls. -/
theorem claim_C6_witness :
    orbitControlsEnabled
      (handlePointClick (initialState emptyStore) firstAnchor) = false :=
  (claim_C6 (handlePointClick (initialState emptyStore) firstAnchor)
    firstAnchor rfl).2.2.1

/-- C7: while the panel is open, a pointer-down outside both the panel and its
trigger closes it; one on the trigger takes the early-return path and leaves
the state unchanged; and the outside-click listener is registered exactly
while the panel is open. -/
theorem claim_C7 (t : ClickTarget) :
    (t.inButton = false → t.inPanel = false → onMousedown true t = false)
    ∧ (t.inButton = true → onMousedown true t = true)
    ∧ listenerRegistered true = true
    ∧ listenerRegistered false = false := by
  refine ⟨?_, ?_, rfl, rfl⟩
  · intro hb hp
    simp [onMousedown, listenerRegistered, handleClickOutside, hb, hp]
  · intro hb
    simp [onMousedown, listenerRegistered, handleClickOutside, hb]

/-- Witness for C7 at a concrete target outside both panel and trigger: the
open panel closes. -/
theorem claim_C7_witness :
    onMousedown true { inButton := false, inPanel := false } = false :=
  (claim_C7 { inButton := false, inPanel := false }).1 rfl rfl

/-- Counterexample to C8 as stated: the catalog holds six anchors, not three,
and none of them is named `Кабина пилота` (that anchor exists only in older
revisions of the app). -/
theorem claim_C8_cex :
    mockPoints.length ≠ 3
    ∧ (displayableOverlays (initialState emptyStore)).length ≠ 3
    ∧ mockPoints.all (fun p => p.id != "Кабина пилота") = true := by
  refine ⟨by decide, by decide, by decide⟩

/-- C8 amended: loading with empty persisted storage yields
`autoRotate=true`, `hotspots=true` and the six catalog anchors displayable;
clicking the anchor named `Фрагмент фюзеляжа` makes it the active selection
with zero displayable hotspot overlays; clicking the backdrop clears the
selection and restores all six overlays. -/
theorem claim_C8 :
    (initialState emptyStore).isAutoRotating = true
    ∧ (initialState emptyStore).showPoints = true
    ∧ (displayableOverlays (initialState emptyStore)).length = 6
    ∧ (displayableOverlays (initialState emptyStore)).all
        (fun o => o.isVisible) = true
    ∧ (handlePointClick (initialState emptyStore) firstAnchor).activePoint =
        some firstAnchor
    ∧ ((handlePointClick (initialState emptyStore) firstAnchor).activePoint.map
        PointData.id) = some "Фрагмент фюзеляжа"
    ∧ displayableOverlays (handlePointClick (initialState emptyStore) firstAnchor) = []
    ∧ (handleCloseInfoBox
        (handlePointClick (initialState emptyStore) firstAnchor)).activePoint = none
    ∧ (displayableOverlays (handleCloseInfoBox
        (handlePointClick (initialState emptyStore) firstAnchor))).length = 6
    ∧ (displayableOverlays (handleCloseInfoBox
        (handlePointClick (initialState emptyStore) firstAnchor))).all
        (fun o => o.isVisible) = true := by
  refine ⟨rfl, rfl, by decide, by decide, rfl, rfl, by decide, rfl, by decide, by decide⟩

theorem findNodeIdx_isSome (p : SceneNode → Bool) (l : List SceneNode) :
    (findNodeIdx p l).isSome = (l.find? p).isSome := by
  induction l with
  | nil => rfl
  | cons nd tl ih =>
    by_cases h : p nd
    · simp [findNodeIdx, h, List.find?_cons_of_pos]
    · simp only [findNodeIdx, h, if_neg, Bool.false_eq_true, not_false_iff,
        List.find?_cons_of_neg, Option.isSome_map]
      rw [← ih]
      simp

theorem length_filterMap_eq_length_filter (f : String → Option ℕ) (l : List String) :
    (l.filterMap f).length = (l.filter (fun a => (f a).isSome)).length := by
  induction l with
  | nil => rfl
  | cons a tl ih =>
    cases hf : f a
    · simp [List.filterMap_cons, List.filter_cons, hf, ih]
    · simp [List.filterMap_cons, List.filter_cons, hf, ih]

/-- C9: sub-parts are resolved by name against the loaded graph once, at
mount, and cached; absent names are skipped silently (they contribute nothing
and nothing else in the scene is touched, with no error raised), while every
present part advances its spin rotation by `delta * propellerSpeed` per
enabled frame. -/
theorem claim_C9 (scene : List SceneNode) (speed delta : ℚ)
    (hb : (mountAirplane scene).blades.Nodup)
    (hs : (mountAirplane scene).spinners.Nodup)
    (hd : ∀ i ∈ (mountAirplane scene).blades, i ∉ (mountAirplane scene).spinners) :
    ((mountAirplane scene).blades = resolveIdx scene bladeNames
      ∧ (mountAirplane scene).spinners = resolveIdx scene spinnerNames)
    ∧ (mountAirplane scene).blades.length =
        (bladeNames.filter (fun n => (getObjectByName scene n).isSome)).length
    ∧ (mountAirplane scene).spinners.length =
        (spinnerNames.filter (fun n => (getObjectByName scene n).isSome)).length
    ∧ (∀ j, ((spinFrame (mountAirplane scene) true speed delta).scene)[j]? =
        if j ∈ (mountAirplane scene).blades then
          (scene[j]?).map (bladeStep speed delta)
        else if j ∈ (mountAirplane scene).spinners then
          (scene[j]?).map (spinnerStep speed delta)
        else scene[j]?) := by
  refine ⟨⟨rfl, rfl⟩, ?_, ?_, ?_⟩
  · calc (mountAirplane scene).blades.length
        = (bladeNames.filterMap
            (fun n => findNodeIdx (fun nd => nd.name == n) scene)).length := rfl
      _ = (bladeNames.filter
            (fun n => (findNodeIdx (fun nd => nd.name == n) scene).isSome)).length := by
          rw [length_filterMap_eq_length_filter]
      _ = (bladeNames.filter (fun n => (getObjectByName scene n).isSome)).length := by
          rw [List.filter_congr]
          intro n hn
          rw [findNodeIdx_isSome, getObjectByName]
  · calc (mountAirplane scene).spinners.length
        = (spinnerNames.filterMap
            (fun n => findNodeIdx (fun nd => nd.name == n) scene)).length := rfl
      _ = (spinnerNames.filter
            (fun n => (findNodeIdx (fun nd => nd.name == n) scene).isSome)).length := by
          rw [length_filterMap_eq_length_filter]
      _ = (spinnerNames.filter (fun n => (getObjectByName scene n).isSome)).length := by
          rw [List.filter_congr]
          intro n hn
          rw [findNodeIdx_isSome, getObjectByName]
  · intro j
    exact spinFrame_getElem (mountAirplane scene) speed delta hb hs hd j

/-- A small concrete model graph: one present blade name, one present spinner
name, one unrelated node; the remaining blade and spinner names are absent. -/
def demoScene : List SceneNode :=
  [ { name := "AirFrance_obj_26_aiAirFrance_udim2_0002", rotation := { x := 0, y := 0, z := 0 } }
  , { name := "Cylinder002", rotation := { x := 0, y := 0, z := 0 } }
  , { name := "fuselage", rotation := { x := 0, y := 0, z := 0 } } ]

/-- Witness for C9 at a concrete scene: exactly the present blade names are
resolved (one of the two), the absent one being skipped. -/
theorem claim_C9_witness :
    (mountAirplane demoScene).blades.length =
      (bladeNames.filter (fun n => (getObjectByName demoScene n).isSome)).length :=
  (claim_C9 demoScene 15 1 (by decide) (by decide) (by decide)).2.1

/-- C10: sub-part spin is not gated by the selection: with a selection active
and spinning enabled, a frame leaves the yaw frozen while every cached blade
and spinner still advances by `delta * propellerSpeed`. -/
theorem claim_C10 (s : AppState) (p : PointData) (fs : FrameState) (delta : ℚ)
    (hp : s.activePoint = some p) (hspin : s.isPropellerSpinning = true)
    (hb : fs.airplane.blades.Nodup) (hs : fs.airplane.spinners.Nodup)
    (hd : ∀ i ∈ fs.airplane.blades, i ∉ fs.airplane.spinners) :
    (appFrame s fs delta).yaw = fs.yaw
    ∧ (∀ j, ((appFrame s fs delta).airplane.scene)[j]? =
        if j ∈ fs.airplane.blades then
          (fs.airplane.scene[j]?).map (bladeStep s.propellerSpeed delta)
        else if j ∈ fs.airplane.spinners then
          (fs.airplane.scene[j]?).map (spinnerStep s.propellerSpeed delta)
        else fs.airplane.scene[j]?) := by
  constructor
  · simp [appFrame, actualIsRotating, hp]
  · intro j
    have hair : (appFrame s fs delta).airplane =
        spinFrame fs.airplane true s.propellerSpeed delta := by
      simp [appFrame, hspin]
    rw [hair]
    exact spinFrame_getElem fs.airplane s.propellerSpeed delta hb hs hd j

/-- Witness for C10 at a concrete state with an active selection and spinning
enabled: the frame leaves the yaw at its current value. -/
theorem claim_C10_witness :
    (appFrame (handlePointClick (initialState emptyStore) firstAnchor)
      { yaw := 7, airplane := mountAirplane demoScene } 1).yaw = 7 :=
  (claim_C10 (handlePointClick (initialState emptyStore) firstAnchor) firstAnchor
    { yaw := 7, airplane := mountAirplane demoScene } 1 rfl rfl
    (by decide) (by decide) (by decide)).1

end AirplaneApp
